import Mathlib

/-!
Shallow embedding of the folder monitoring and checkpoint/rollback engine
implemented in `monitor.py` (class `FolderMonitor`), together with theorems
settling the specification claims about it.

Modelling conventions:
* A path relative to the watched root is its list of segments
  (`rel.parts` in the source); the forward-slash joined form used as the
  ledger key is recovered by `joinPath`.  Events arriving for paths outside
  the watched root are dropped by the source before any state change, so the
  model takes relative paths directly.
* Python dicts become association lists with insert-or-update semantics.
* Wall-clock timestamps (`datetime.now().isoformat`) and the monotonic clock
  (`time.monotonic`) become `Nat` parameters passed to each operation.
* The live file tree and the snapshot staging directory become finite maps
  from relative path to an abstract content value (`Nat`).
* Fallible per-file I/O (`shutil.copy2`, `Path.unlink`, `mkdir`) is modelled
  by an oracle `IOEnv` saying which per-file operations raise `OSError`;
  a `mkdir` failure inside a copy's `try` block is folded into `copyErr`.
-/

/-- The four raw change kinds delivered by the watchdog handler
(`on_created` / `on_modified` / `on_deleted` / `on_moved`). -/
inductive Kind where
  | created
  | modified
  | deleted
  | moved
deriving DecidableEq, Repr

/-- One ledger value: the Python dict `{"type": str, "time": str}`. -/
structure Entry where
  type : Kind
  time : Nat
deriving DecidableEq, Repr

/-- A path relative to the watched root, as its segments (`rel.parts`). -/
abbrev RelPath := List String

/-- A change table (`_all_changes` / `_checkpoint_changes`). -/
abbrev Table := List (RelPath × Entry)

/-- The live watched tree: relative path of each regular file to its content. -/
abbrev Fs := List (RelPath × Nat)

/-- The snapshot staging directory: relative path to staged file content. -/
abbrev Snapshot := List (RelPath × Nat)

/-- `d.get(k)` on a Python dict. -/
def lookupA {α : Type} (t : List (RelPath × α)) (k : RelPath) : Option α :=
  match t with
  | [] => none
  | (k', v) :: rest => if k' = k then some v else lookupA rest k

/-- `d[k] = v` on a Python dict: update in place, else append. -/
def insertA {α : Type} (t : List (RelPath × α)) (k : RelPath) (v : α) :
    List (RelPath × α) :=
  match t with
  | [] => [(k, v)]
  | (k', v') :: rest =>
    if k' = k then (k, v) :: rest else (k', v') :: insertA rest k v

/-- `del d[k]` / `d.pop(k, None)` on a Python dict. -/
def eraseA {α : Type} (t : List (RelPath × α)) (k : RelPath) :
    List (RelPath × α) :=
  match t with
  | [] => []
  | (k', v') :: rest => if k' = k then rest else (k', v') :: eraseA rest k

/-- Glob matching of `fnmatch.fnmatch` on POSIX (where `normcase` is the
identity), for the metacharacters `*` and `?`.  None of the engine's default
ignore patterns uses a `[...]` character class, so classes are not modelled;
their characters match literally. -/
def globMatchFuel : Nat → List Char → List Char → Bool
  | _ + 1, [], [] => true
  | _ + 1, [], _ :: _ => false
  | fuel + 1, '*' :: ps, [] => globMatchFuel fuel ps []
  | fuel + 1, '*' :: ps, c :: cs =>
    globMatchFuel fuel ps (c :: cs) || globMatchFuel fuel ('*' :: ps) cs
  | fuel + 1, '?' :: ps, _ :: cs => globMatchFuel fuel ps cs
  | _ + 1, '?' :: _, [] => false
  | fuel + 1, p :: ps, c :: cs => (p == c) && globMatchFuel fuel ps cs
  | _ + 1, _ :: _, [] => false
  | 0, _, _ => false

/-- Each recursive call of `globMatchFuel` strictly shrinks
`pat.length + s.length`, so this fuel never runs out. -/
def globMatchL (pat s : List Char) : Bool :=
  globMatchFuel (pat.length + s.length + 1) pat s

/-- `fnmatch.fnmatch(name, pattern)`. -/
def fnmatchB (name pattern : String) : Bool :=
  globMatchL pattern.data name.data

/-- `rel.as_posix()`: the forward-slash joined relative path. -/
def joinPath (parts : RelPath) : String :=
  String.intercalate "/" parts

/-- `DEFAULT_IGNORE_PATTERNS` from `monitor.py`. -/
def DEFAULT_IGNORE_PATTERNS : List String :=
  [".git", "__pycache__", "*.pyc", "*.pyo", "node_modules", ".DS_Store",
   "Thumbs.db", "*.tmp", "*.log", ".idea", ".vscode", "*.egg-info",
   ".pastamonitor_backup"]

/-- `FolderMonitor._is_ignored` on a path already inside the watched root:
some pattern matches an individual path segment or the full relative path. -/
def is_ignored (patterns : List String) (rel : RelPath) : Bool :=
  patterns.any (fun pattern =>
    rel.any (fun part => fnmatchB part pattern) ||
      fnmatchB (joinPath rel) pattern)

/-- `FolderMonitor._load_ignore_patterns`: built-in defaults plus the
stripped, non-blank, non-comment lines of the optional override file
(`none` models a missing or unreadable file). -/
def load_ignore_patterns (overrideLines : Option (List String)) : List String :=
  DEFAULT_IGNORE_PATTERNS ++
    match overrideLines with
    | none => []
    | some lines =>
      (lines.map String.trim).filter
        (fun l => l ≠ "" && !(String.startsWith l "#"))

/-- The mutable state of one `FolderMonitor` instance. -/
structure FolderMonitor where
  ignorePatterns : List String
  /-- `_all_changes` -/
  allChanges : Table
  /-- `_checkpoint_changes` -/
  checkpointChanges : Table
  /-- `_checkpoint_dir`, identified with the staged file map it contains. -/
  checkpointDir : Option Snapshot
  /-- `_has_checkpoint` -/
  hasCheckpoint : Bool
  /-- `_suppressed`: relative path to monotonic expiry timestamp. -/
  suppressed : List (RelPath × Nat)
deriving DecidableEq, Repr

/-- `FolderMonitor.__init__`. -/
def initMonitor (overrideLines : Option (List String)) : FolderMonitor :=
  { ignorePatterns := load_ignore_patterns overrideLines
    allChanges := []
    checkpointChanges := []
    checkpointDir := none
    hasCheckpoint := false
    suppressed := [] }

/-- Default suppression duration of `_suppress_path` (3.0 seconds). -/
def suppressDuration : Nat := 3

/-- `FolderMonitor._suppress_path` with the default duration. -/
def suppress_path (m : FolderMonitor) (monoNow : Nat) (rel : RelPath) :
    FolderMonitor :=
  { m with suppressed := insertA m.suppressed rel (monoNow + suppressDuration) }

/-- The inner `_merge` of `_register_change`: coalesce a previously recorded
kind with a newly arrived raw kind. -/
def merge (prevType : Option Kind) (newType : Kind) : Kind :=
  match prevType with
  | none => newType
  | some p =>
    if p = Kind.created ∧ newType = Kind.modified then Kind.created
    else if p = Kind.deleted ∧ newType = Kind.created then Kind.modified
    else newType

/-- The locked section of `_register_change`: record the effective kind in
the all-time table, and in the since-checkpoint table when one is active. -/
def recordChange (m : FolderMonitor) (now : Nat) (rel : RelPath) (k : Kind) :
    FolderMonitor :=
  let effAll := merge ((lookupA m.allChanges rel).map (fun e => e.type)) k
  let all' := insertA m.allChanges rel ⟨effAll, now⟩
  if m.hasCheckpoint then
    let effCp :=
      merge ((lookupA m.checkpointChanges rel).map (fun e => e.type)) k
    { m with
        allChanges := all'
        checkpointChanges := insertA m.checkpointChanges rel ⟨effCp, now⟩ }
  else { m with allChanges := all' }

/-- `FolderMonitor._register_change` for an event at relative path `rel`
inside the watched root: drop ignored paths, drop (without clearing) events
inside an active suppression window, lazily delete an expired suppression
entry, then record the coalesced change.  `now` is the wall-clock timestamp
stored in the ledger; `monoNow` is `time.monotonic()`.  The expiry-truthiness
test of the source (`if expiry and ...`) is `e ≠ 0`. -/
def register_change (m : FolderMonitor) (now monoNow : Nat) (rel : RelPath)
    (k : Kind) : FolderMonitor :=
  if is_ignored m.ignorePatterns rel then m
  else
    match lookupA m.suppressed rel with
    | some e =>
      if e ≠ 0 ∧ monoNow < e then m
      else
        let m' :=
          if e ≠ 0 then { m with suppressed := eraseA m.suppressed rel } else m
        recordChange m' now rel k
    | none => recordChange m now rel k

/-- `FolderMonitor.get_changes`: the since-checkpoint table when a checkpoint
is active, else the all-time table (`dict(...)` copies are value semantics
here). -/
def get_changes (m : FolderMonitor) : Table :=
  if m.hasCheckpoint then m.checkpointChanges else m.allChanges

/-- `FolderMonitor.clear_all_changes`. -/
def clear_all_changes (m : FolderMonitor) : FolderMonitor :=
  { m with allChanges := [], checkpointChanges := [] }

/-- Which per-file I/O operations raise `OSError`. -/
structure IOEnv where
  copyErr : RelPath → Bool
  unlinkErr : RelPath → Bool

/-- The proper directory prefixes of a relative file path: the directories
`os.walk` must descend through to reach the file. -/
def parentDirs : RelPath → List RelPath
  | [] => []
  | [_] => []
  | x :: xs => [x] :: (parentDirs xs).map (fun d => x :: d)

/-- The copy phase of `create_checkpoint`: walk the live tree, pruning
ignored directories so their contents are never visited, skip ignored files,
and stage every remaining file whose copy does not fail. -/
def walkCopied (patterns : List String) (env : IOEnv) (fs : Fs) : Snapshot :=
  fs.filter (fun f =>
    (parentDirs f.1).all (fun d => !is_ignored patterns d) &&
      !is_ignored patterns f.1 && !env.copyErr f.1)

/-- `FolderMonitor.create_checkpoint`: stage a copy of the tree, then under
the lock install it, set `has_checkpoint`, and reset the since-checkpoint
table (per-file copy failures are reported as warnings only). -/
def create_checkpoint (m : FolderMonitor) (fs : Fs) (env : IOEnv) :
    FolderMonitor :=
  { m with
      checkpointDir := some (walkCopied m.ignorePatterns env fs)
      hasCheckpoint := true
      checkpointChanges := [] }

/-- `FolderMonitor._discard_checkpoint`. -/
def discard_checkpoint (m : FolderMonitor) (clearAll : Bool) : FolderMonitor :=
  { m with
      checkpointDir := none
      hasCheckpoint := false
      checkpointChanges := []
      allChanges := if clearAll then [] else m.allChanges }

/-- `FolderMonitor.cancel_checkpoint`. -/
def cancel_checkpoint (m : FolderMonitor) : FolderMonitor :=
  discard_checkpoint m false

/-- Accumulator of `rollback`'s two per-file loops. -/
structure RollbackAcc where
  m : FolderMonitor
  fs : Fs
  errs : List RelPath
deriving Repr

/-- One iteration of `rollback`'s restore loop: suppress the path, then copy
the staged file back over the live path (collecting a failure). -/
def restoreStep (env : IOEnv) (monoNow : Nat) (acc : RollbackAcc)
    (f : RelPath × Nat) : RollbackAcc :=
  let m' := suppress_path acc.m monoNow f.1
  if env.copyErr f.1 then { acc with m := m', errs := acc.errs ++ [f.1] }
  else { m := m', fs := insertA acc.fs f.1 f.2, errs := acc.errs }

/-- One iteration of `rollback`'s deletion loop: if the live file exists,
suppress the path and unlink it (collecting a failure). -/
def deleteStep (env : IOEnv) (monoNow : Nat) (acc : RollbackAcc)
    (rel : RelPath) : RollbackAcc :=
  if (lookupA acc.fs rel).isSome then
    let m' := suppress_path acc.m monoNow rel
    if env.unlinkErr rel then { acc with m := m', errs := acc.errs ++ [rel] }
    else { m := m', fs := eraseA acc.fs rel, errs := acc.errs }
  else acc

/-- The relative paths whose since-checkpoint record has kind `created`. -/
def createdAfter (t : Table) : List RelPath :=
  (t.filter (fun e => e.2.type == Kind.created)).map (fun e => e.1)

/-- The body of `rollback` once an active checkpoint is found: restore every
staged file, then delete every live file recorded as `created` since the
checkpoint, threading the error list through both loops. -/
def rollbackBody (snap : Snapshot) (m : FolderMonitor) (fs : Fs) (env : IOEnv)
    (monoNow : Nat) : RollbackAcc :=
  let acc1 := snap.foldl (restoreStep env monoNow) ⟨m, fs, []⟩
  (createdAfter m.checkpointChanges).foldl (deleteStep env monoNow) acc1

/-- `FolderMonitor.rollback`: fail when no checkpoint directory is held,
else restore and delete per `rollbackBody`, unconditionally discard the
checkpoint clearing both tables, and return whether no error occurred. -/
def rollback (m : FolderMonitor) (fs : Fs) (env : IOEnv) (monoNow : Nat) :
    Bool × FolderMonitor × Fs :=
  match m.checkpointDir with
  | none => (false, m, fs)
  | some snap =>
    let acc := rollbackBody snap m fs env monoNow
    (acc.errs.isEmpty, discard_checkpoint acc.m true, acc.fs)

/-- The recorded kind `rollback_file` acts on: prefer the since-checkpoint
entry, fall back to the all-time entry, default to `modified`
(`self._checkpoint_changes.get(rel) or self._all_changes.get(rel)`). -/
def recordedKind (m : FolderMonitor) (rel : RelPath) : Kind :=
  match
    (match lookupA m.checkpointChanges rel with
     | some i => some i
     | none => lookupA m.allChanges rel) with
  | some i => i.type
  | none => Kind.modified

/-- Remove `rel` from both ledger tables (`pop(rel, None)` on each). -/
def popBoth (m : FolderMonitor) (rel : RelPath) : FolderMonitor :=
  { m with
      checkpointChanges := eraseA m.checkpointChanges rel
      allChanges := eraseA m.allChanges rel }

/-- `FolderMonitor.rollback_file`: fail when no checkpoint directory is
held; else delete the live file when the recorded kind is `created`
(missing file not an error), else restore the staged copy when one exists,
else delete the live file; on I/O failure return `false` leaving the ledger
tables untouched, on success remove the path from both tables and return
`true`. -/
def rollback_file (m : FolderMonitor) (fs : Fs) (env : IOEnv) (monoNow : Nat)
    (rel : RelPath) : Bool × FolderMonitor × Fs :=
  match m.checkpointDir with
  | none => (false, m, fs)
  | some snap =>
    if recordedKind m rel = Kind.created then
      let m1 := suppress_path m monoNow rel
      if env.unlinkErr rel then (false, m1, fs)
      else (true, popBoth m1 rel, eraseA fs rel)
    else
      match lookupA snap rel with
      | some content =>
        let m1 := suppress_path m monoNow rel
        if env.copyErr rel then (false, m1, fs)
        else (true, popBoth m1 rel, insertA fs rel content)
      | none =>
        let m1 := suppress_path m monoNow rel
        if env.unlinkErr rel then (false, m1, fs)
        else (true, popBoth m1 rel, eraseA fs rel)

/-- One raw (non-directory) watchdog event dispatched to
`_register_change`. -/
structure RawEvent where
  now : Nat
  monoNow : Nat
  rel : RelPath
  kind : Kind

/-- Dispatch a sequence of raw events through `_register_change`. -/
def runEvents (m : FolderMonitor) (evs : List RawEvent) : FolderMonitor :=
  evs.foldl (fun m e => register_change m e.now e.monoNow e.rel e.kind) m

/-- The coalescing table of spec §4.2, stated from the spec's words: the
effective kind after `register(p, k1)` then `register(p, k2)` on a fresh
path, to be compared with what `_merge` computes. -/
def specEffectiveKind (k1 k2 : Kind) : Kind :=
  if k1 = Kind.created ∧ k2 = Kind.modified then Kind.created
  else if k1 = Kind.deleted ∧ k2 = Kind.created then Kind.modified
  else k2

/-- `has_checkpoint` is true exactly when a snapshot staging directory
reference is held. -/
def checkpointInvariant (m : FolderMonitor) : Prop :=
  m.hasCheckpoint = m.checkpointDir.isSome

/-- An I/O oracle where no per-file operation fails. -/
def env0 : IOEnv :=
  { copyErr := fun _ => false, unlinkErr := fun _ => false }

/-- A concrete snapshot used by the witnesses. -/
def snapW : Snapshot := [(["a.txt"], 5), (["c.txt"], 7)]

/-- A concrete monitor with an active checkpoint used by the witnesses. -/
def cpMonitor : FolderMonitor :=
  { ignorePatterns := []
    allChanges := [(["a.txt"], ⟨Kind.modified, 0⟩), (["b.txt"], ⟨Kind.created, 1⟩)]
    checkpointChanges :=
      [(["b.txt"], ⟨Kind.created, 1⟩), (["c.txt"], ⟨Kind.deleted, 2⟩)]
    checkpointDir := some snapW
    hasCheckpoint := true
    suppressed := [] }

/-- A concrete live tree used by the witnesses. -/
def fs0 : Fs := [(["a.txt"], 9), (["b.txt"], 3)]

/-- A concrete monitor holding an active suppression window for `a`
(expiry 10 on the monotonic clock). -/
def suppressedMonitor : FolderMonitor :=
  { ignorePatterns := []
    allChanges := []
    checkpointChanges := []
    checkpointDir := none
    hasCheckpoint := false
    suppressed := [(["a"], 10)] }

/-! ### Helper lemmas about the dictionary operations -/

theorem lookupA_insertA_self {α : Type} (t : List (RelPath × α)) (k : RelPath)
    (v : α) : lookupA (insertA t k v) k = some v := by
  induction t with
  | nil => simp [insertA, lookupA]
  | cons f rest ih =>
    by_cases h : f.1 = k
    · simp [insertA, h, lookupA]
    · simp [insertA, h, lookupA, ih]

theorem lookupA_insertA_ne {α : Type} (t : List (RelPath × α)) (k k' : RelPath)
    (v : α) (h : k' ≠ k) : lookupA (insertA t k' v) k = lookupA t k := by
  induction t with
  | nil => simp [insertA, lookupA, h]
  | cons f rest ih =>
    by_cases hf : f.1 = k'
    · simp [insertA, hf, lookupA, h]
    · simp [insertA, hf, lookupA, ih]

/-! ### Frame lemmas for the change-recording path -/

theorem recordChange_allChanges (m : FolderMonitor) (now : Nat) (rel : RelPath)
    (k : Kind) :
    (recordChange m now rel k).allChanges =
      insertA m.allChanges rel
        ⟨merge ((lookupA m.allChanges rel).map (fun e => e.type)) k, now⟩ := by
  unfold recordChange
  by_cases h : m.hasCheckpoint = true <;> simp [h]

theorem recordChange_frame (m : FolderMonitor) (now : Nat) (rel : RelPath)
    (k : Kind) :
    (recordChange m now rel k).ignorePatterns = m.ignorePatterns
    ∧ (recordChange m now rel k).hasCheckpoint = m.hasCheckpoint
    ∧ (recordChange m now rel k).checkpointDir = m.checkpointDir
    ∧ (recordChange m now rel k).suppressed = m.suppressed := by
  unfold recordChange
  by_cases h : m.hasCheckpoint = true <;> simp [h]

theorem recordChange_checkpointChanges (m : FolderMonitor) (now : Nat)
    (rel : RelPath) (k : Kind) :
    (recordChange m now rel k).checkpointChanges = m.checkpointChanges
    ∨ (recordChange m now rel k).checkpointChanges =
        insertA m.checkpointChanges rel
          ⟨merge ((lookupA m.checkpointChanges rel).map (fun e => e.type)) k,
            now⟩ := by
  unfold recordChange
  by_cases h : m.hasCheckpoint = true <;> simp [h]

theorem register_change_frame (m : FolderMonitor) (now monoNow : Nat)
    (rel : RelPath) (k : Kind) :
    (register_change m now monoNow rel k).ignorePatterns = m.ignorePatterns
    ∧ (register_change m now monoNow rel k).hasCheckpoint = m.hasCheckpoint
    ∧ (register_change m now monoNow rel k).checkpointDir = m.checkpointDir := by
  unfold register_change
  by_cases h1 : is_ignored m.ignorePatterns rel = true
  · simp [h1]
  · simp only [Bool.not_eq_true] at h1
    simp only [h1, Bool.false_eq_true, if_false]
    cases h2 : lookupA m.suppressed rel with
    | none => simp [recordChange_frame]
    | some e =>
      by_cases h3 : e ≠ 0 ∧ monoNow < e
      · simp [h3]
      · by_cases h4 : e ≠ 0
        · have h5 : ¬ monoNow < e := fun hlt => h3 ⟨h4, hlt⟩
          simp [h3, h4, h5, recordChange_frame]
        · simp [h3, h4, recordChange_frame]

theorem register_change_not_suppressed (m : FolderMonitor) (now monoNow : Nat)
    (rel : RelPath) (k : Kind)
    (hig : is_ignored m.ignorePatterns rel = false)
    (hsup : lookupA m.suppressed rel = none) :
    register_change m now monoNow rel k = recordChange m now rel k := by
  unfold register_change
  simp [hig, hsup]

theorem recordChange_lookup_ne (m : FolderMonitor) (now : Nat) (r : RelPath)
    (k : Kind) (rel : RelPath) (h : r ≠ rel) :
    lookupA (recordChange m now r k).allChanges rel = lookupA m.allChanges rel
    ∧ lookupA (recordChange m now r k).checkpointChanges rel =
        lookupA m.checkpointChanges rel := by
  unfold recordChange
  by_cases hc : m.hasCheckpoint = true <;>
    simp [hc, lookupA_insertA_ne _ _ _ _ h]

theorem register_change_lookup_none (m : FolderMonitor) (now monoNow : Nat)
    (r : RelPath) (k : Kind) (rel : RelPath)
    (hig : is_ignored m.ignorePatterns rel = true)
    (hall : lookupA m.allChanges rel = none)
    (hcp : lookupA m.checkpointChanges rel = none) :
    lookupA (register_change m now monoNow r k).allChanges rel = none
    ∧ lookupA (register_change m now monoNow r k).checkpointChanges rel =
        none := by
  by_cases hr : r = rel
  · subst hr
    unfold register_change
    simp [hig, hall, hcp]
  · unfold register_change
    by_cases h1 : is_ignored m.ignorePatterns r = true
    · simp [h1, hall, hcp]
    · simp only [Bool.not_eq_true] at h1
      simp only [h1, Bool.false_eq_true, if_false]
      cases h2 : lookupA m.suppressed r with
      | none =>
        simp [hall ▸ (recordChange_lookup_ne m now r k rel hr).1,
          hcp ▸ (recordChange_lookup_ne m now r k rel hr).2]
      | some e =>
        by_cases h3 : e ≠ 0 ∧ monoNow < e
        · simp [h3, hall, hcp]
        · dsimp only
          rw [if_neg h3]
          by_cases h4 : e ≠ 0
          · rw [if_pos h4]
            constructor
            · rw [(recordChange_lookup_ne _ now r k rel hr).1]
              exact hall
            · rw [(recordChange_lookup_ne _ now r k rel hr).2]
              exact hcp
          · rw [if_neg h4]
            constructor
            · rw [(recordChange_lookup_ne _ now r k rel hr).1]
              exact hall
            · rw [(recordChange_lookup_ne _ now r k rel hr).2]
              exact hcp

theorem runEvents_ignored_none (m : FolderMonitor) (evs : List RawEvent)
    (rel : RelPath)
    (hig : is_ignored m.ignorePatterns rel = true)
    (hall : lookupA m.allChanges rel = none)
    (hcp : lookupA m.checkpointChanges rel = none) :
    lookupA (runEvents m evs).allChanges rel = none
    ∧ lookupA (runEvents m evs).checkpointChanges rel = none := by
  induction evs generalizing m with
  | nil => exact ⟨hall, hcp⟩
  | cons e evs ih =>
    have hfr := register_change_frame m e.now e.monoNow e.rel e.kind
    have hstep :=
      register_change_lookup_none m e.now e.monoNow e.rel e.kind rel hig hall
        hcp
    exact ih (register_change m e.now e.monoNow e.rel e.kind)
      (hfr.1 ▸ hig) hstep.1 hstep.2

theorem lookupA_walkCopied_ignored (patterns : List String) (env : IOEnv)
    (fs : Fs) (rel : RelPath) (h : is_ignored patterns rel = true) :
    lookupA (walkCopied patterns env fs) rel = none := by
  induction fs with
  | nil => rfl
  | cons f rest ih =>
    unfold walkCopied at ih ⊢
    by_cases hk : f.1 = rel
    · simp [List.filter, hk, h, ih]
    · by_cases hp : ((parentDirs f.1).all (fun d => !is_ignored patterns d) &&
        (!is_ignored patterns f.1 && !env.copyErr f.1)) = true
      · simp only [List.filter]
        rw [show ((parentDirs f.1).all (fun d => !is_ignored patterns d) &&
          !is_ignored patterns f.1 && !env.copyErr f.1) =
            ((parentDirs f.1).all (fun d => !is_ignored patterns d) &&
              (!is_ignored patterns f.1 && !env.copyErr f.1)) from by
          rw [Bool.and_assoc]]
        rw [hp]
        simp [lookupA, hk, ih]
      · simp only [List.filter]
        rw [show ((parentDirs f.1).all (fun d => !is_ignored patterns d) &&
          !is_ignored patterns f.1 && !env.copyErr f.1) =
            ((parentDirs f.1).all (fun d => !is_ignored patterns d) &&
              (!is_ignored patterns f.1 && !env.copyErr f.1)) from by
          rw [Bool.and_assoc]]
        rw [Bool.not_eq_true] at hp
        rw [hp]
        exact ih

theorem merge_some_eq_spec (k1 k2 : Kind) :
    merge (some k1) k2 = specEffectiveKind k1 k2 := by
  cases k1 <;> cases k2 <;> decide

/-! ### Claim theorems -/

/-- C1: registering kind `k1` and then kind `k2` for the same fresh,
non-ignored, non-suppressed path leaves an all-time ledger entry whose kind
is exactly the coalescing table's effective kind (`created` then `modified`
gives `created`; `deleted` then `created` gives `modified`; everything else
gives `k2`), and the first event on an untracked path records its own
kind. -/
theorem coalescing_table_spec (m : FolderMonitor) (rel : RelPath)
    (k1 k2 : Kind) (t1 mono1 t2 mono2 : Nat)
    (hig : is_ignored m.ignorePatterns rel = false)
    (hsup : lookupA m.suppressed rel = none)
    (hnone : lookupA m.allChanges rel = none) :
    (lookupA (register_change m t1 mono1 rel k1).allChanges rel).map
        (fun e => e.type) = some k1
    ∧ (lookupA (register_change (register_change m t1 mono1 rel k1) t2 mono2
          rel k2).allChanges rel).map (fun e => e.type) =
        some (specEffectiveKind k1 k2) := by
  have h1 : register_change m t1 mono1 rel k1 = recordChange m t1 rel k1 :=
    register_change_not_suppressed m t1 mono1 rel k1 hig hsup
  have hall1 : (recordChange m t1 rel k1).allChanges =
      insertA m.allChanges rel ⟨k1, t1⟩ := by
    rw [recordChange_allChanges, hnone]
    rfl
  have hfr := recordChange_frame m t1 rel k1
  constructor
  · rw [h1, hall1, lookupA_insertA_self]
    rfl
  · have hig2 :
        is_ignored (recordChange m t1 rel k1).ignorePatterns rel = false :=
      hfr.1 ▸ hig
    have hsup2 : lookupA (recordChange m t1 rel k1).suppressed rel = none :=
      hfr.2.2.2 ▸ hsup
    rw [h1, register_change_not_suppressed _ t2 mono2 rel k2 hig2 hsup2,
      recordChange_allChanges, lookupA_insertA_self]
    simp [hall1, lookupA_insertA_self, merge_some_eq_spec]

/-- C4 counterexample: with an active suppression window for `a` (expiry 10,
monotonic now 5), the incoming event is dropped but the suppression entry is
not removed, contrary to the claim that the entry is consumed by that one
event. -/
theorem suppression_consumed_counterexample :
    register_change suppressedMonitor 0 5 ["a"] Kind.modified =
        suppressedMonitor
    ∧ ¬ lookupA (register_change suppressedMonitor 0 5 ["a"]
          Kind.modified).suppressed ["a"] = none := by
  constructor <;> decide

/-- C4 (amended): while the suppression window for a path is active, an
incoming raw event for that path is dropped (recorded in neither ledger
table) and the suppression entry is retained; the entry is removed only
lazily, when an event for that path arrives at or after the expiry, and that
later event is recorded normally. -/
theorem suppression_window_spec (m : FolderMonitor) (now monoNow : Nat)
    (rel : RelPath) (k : Kind) (e : Nat)
    (hig : is_ignored m.ignorePatterns rel = false)
    (hsup : lookupA m.suppressed rel = some e) (he : e ≠ 0) :
    (monoNow < e → register_change m now monoNow rel k = m)
    ∧ (¬ monoNow < e →
        (register_change m now monoNow rel k).suppressed =
            eraseA m.suppressed rel
        ∧ lookupA (register_change m now monoNow rel k).allChanges rel =
            some ⟨merge ((lookupA m.allChanges rel).map (fun x => x.type)) k,
              now⟩) := by
  unfold register_change
  simp only [hig, Bool.false_eq_true, if_false, hsup]
  constructor
  · intro hlt
    rw [if_pos ⟨he, hlt⟩]
  · intro hnlt
    rw [if_neg (fun hc => hnlt hc.2), if_pos he]
    constructor
    · rw [(recordChange_frame _ now rel k).2.2.2]
    · rw [recordChange_allChanges, lookupA_insertA_self]

/-- C5: `get_changes` returns the since-checkpoint table when a checkpoint
is active and the all-time table otherwise, never a mixture (the result in
one mode is independent of the other table); the returned mapping is a value
(the source's defensive `dict` copy), so later registrations cannot alter a
previously returned result. -/
theorem get_changes_mode_spec (m : FolderMonitor) :
    (m.hasCheckpoint = true →
      get_changes m = m.checkpointChanges
      ∧ ∀ t, get_changes { m with allChanges := t } = m.checkpointChanges)
    ∧ (m.hasCheckpoint = false →
      get_changes m = m.allChanges
      ∧ ∀ t, get_changes { m with checkpointChanges := t } = m.allChanges) := by
  constructor
  · intro h
    exact ⟨by simp [get_changes, h], fun t => by simp [get_changes, h]⟩
  · intro h
    exact ⟨by simp [get_changes, h], fun t => by simp [get_changes, h]⟩

/-- C6: `cancel_checkpoint` clears `has_checkpoint`, discards the snapshot
directory and empties only the since-checkpoint table; the all-time table is
untouched, so a subsequent `get_changes` returns it in full. -/
theorem cancel_checkpoint_spec (m : FolderMonitor) :
    (cancel_checkpoint m).hasCheckpoint = false
    ∧ (cancel_checkpoint m).checkpointDir = none
    ∧ (cancel_checkpoint m).checkpointChanges = []
    ∧ (cancel_checkpoint m).allChanges = m.allChanges
    ∧ get_changes (cancel_checkpoint m) = m.allChanges := by
  simp [cancel_checkpoint, discard_checkpoint, get_changes]

/-- C7: immediately after `create_checkpoint` the since-checkpoint table is
empty and `has_checkpoint` is true, so `get_changes` with no intervening
events returns an empty table. -/
theorem create_checkpoint_spec (m : FolderMonitor) (fs : Fs) (env : IOEnv) :
    (create_checkpoint m fs env).hasCheckpoint = true
    ∧ (create_checkpoint m fs env).checkpointChanges = []
    ∧ (create_checkpoint m fs env).checkpointDir =
        some (walkCopied m.ignorePatterns env fs)
    ∧ get_changes (create_checkpoint m fs env) = [] := by
  simp [create_checkpoint, get_changes]

/-- C10: `clear_all_changes` empties both ledger tables unconditionally,
leaves `has_checkpoint` and the snapshot staging directory unchanged, and a
subsequent `get_changes` returns an empty table in either mode. -/
theorem clear_all_changes_spec (m : FolderMonitor) :
    (clear_all_changes m).allChanges = []
    ∧ (clear_all_changes m).checkpointChanges = []
    ∧ (clear_all_changes m).hasCheckpoint = m.hasCheckpoint
    ∧ (clear_all_changes m).checkpointDir = m.checkpointDir
    ∧ get_changes (clear_all_changes m) = [] := by
  refine ⟨rfl, rfl, rfl, rfl, ?_⟩
  by_cases h : m.hasCheckpoint = true <;>
    simp [clear_all_changes, get_changes, h]

/-- C2: `rollback` with no active checkpoint returns `False` and changes
nothing; with an active checkpoint it unconditionally discards the snapshot,
clears `has_checkpoint` and both ledger tables, and returns `True` exactly
when zero per-file I/O errors occurred during the restore and delete
loops. -/
theorem rollback_spec (m : FolderMonitor) (fs : Fs) (env : IOEnv)
    (monoNow : Nat) :
    (m.checkpointDir = none → rollback m fs env monoNow = (false, m, fs))
    ∧ ∀ snap, m.checkpointDir = some snap →
        (rollback m fs env monoNow).2.1.hasCheckpoint = false
        ∧ (rollback m fs env monoNow).2.1.checkpointDir = none
        ∧ (rollback m fs env monoNow).2.1.allChanges = []
        ∧ (rollback m fs env monoNow).2.1.checkpointChanges = []
        ∧ ((rollback m fs env monoNow).1 = true ↔
            (rollbackBody snap m fs env monoNow).errs = []) := by
  constructor
  · intro h
    simp [rollback, h]
  · intro snap h
    simp [rollback, h, discard_checkpoint, List.isEmpty_iff]

/-- C3: `rollback_file` with an active checkpoint determines the recorded
kind by preferring the since-checkpoint table, falling back to the all-time
table, defaulting to `modified`; when the kind is `created` it deletes the
live file (a missing live file is not an error), else restores the snapshot
copy when one exists, else deletes the live file; on a successful delete or
copy it removes the path from both ledger tables and returns `True`. -/
theorem rollback_file_spec (m : FolderMonitor) (fs : Fs) (env : IOEnv)
    (monoNow : Nat) (rel : RelPath) (snap : Snapshot)
    (hcp : m.checkpointDir = some snap) :
    (∀ i, lookupA m.checkpointChanges rel = some i →
        recordedKind m rel = i.type)
    ∧ (lookupA m.checkpointChanges rel = none →
        ∀ i, lookupA m.allChanges rel = some i → recordedKind m rel = i.type)
    ∧ (lookupA m.checkpointChanges rel = none →
        lookupA m.allChanges rel = none → recordedKind m rel = Kind.modified)
    ∧ (recordedKind m rel = Kind.created → env.unlinkErr rel = false →
        rollback_file m fs env monoNow rel =
          (true, popBoth (suppress_path m monoNow rel) rel, eraseA fs rel))
    ∧ (recordedKind m rel ≠ Kind.created → ∀ c, lookupA snap rel = some c →
        env.copyErr rel = false →
        rollback_file m fs env monoNow rel =
          (true, popBoth (suppress_path m monoNow rel) rel,
            insertA fs rel c))
    ∧ (recordedKind m rel ≠ Kind.created → lookupA snap rel = none →
        env.unlinkErr rel = false →
        rollback_file m fs env monoNow rel =
          (true, popBoth (suppress_path m monoNow rel) rel,
            eraseA fs rel)) := by
  refine ⟨?_, ?_, ?_, ?_, ?_, ?_⟩
  · intro i hi
    simp [recordedKind, hi]
  · intro hn i hi
    simp [recordedKind, hn, hi]
  · intro hn hn2
    simp [recordedKind, hn, hn2]
  · intro hk he
    simp [rollback_file, hcp, hk, he]
  · intro hk c hc he
    simp [rollback_file, hcp, hk, hc, he]
  · intro hk hc he
    simp [rollback_file, hcp, hk, hc, he]

/-- C8: a path matching an ignore pattern on a segment or on its full
relative form (e.g. `.git`, `node_modules`, `*.tmp`) is never entered into
either ledger table by any sequence of raw events, hence never appears in
`get_changes()`, and the checkpoint walk never copies it into the snapshot
staging directory. -/
theorem ignored_paths_invisible (m : FolderMonitor) (rel : RelPath)
    (evs : List RawEvent) (fs : Fs) (env : IOEnv)
    (hig : is_ignored m.ignorePatterns rel = true)
    (hall : lookupA m.allChanges rel = none)
    (hcp : lookupA m.checkpointChanges rel = none) :
    lookupA (runEvents m evs).allChanges rel = none
    ∧ lookupA (runEvents m evs).checkpointChanges rel = none
    ∧ lookupA (get_changes (runEvents m evs)) rel = none
    ∧ lookupA (walkCopied m.ignorePatterns env fs) rel = none := by
  have h := runEvents_ignored_none m evs rel hig hall hcp
  refine ⟨h.1, h.2, ?_,
    lookupA_walkCopied_ignored m.ignorePatterns env fs rel hig⟩
  unfold get_changes
  by_cases hc : (runEvents m evs).hasCheckpoint = true <;> simp [hc, h.1, h.2]

/-- C9: every public operation preserves the invariant that
`has_checkpoint` is true exactly when a snapshot staging directory reference
is held; `create_checkpoint` sets both together, `cancel_checkpoint` (and
the rollback discard) clears both together, and the initial state has
neither. -/
theorem checkpoint_flag_dir_invariant (o : Option (List String))
    (m : FolderMonitor) (fs : Fs) (env : IOEnv) (now monoNow : Nat)
    (rel : RelPath) (k : Kind) (hm : checkpointInvariant m) :
    checkpointInvariant (initMonitor o)
    ∧ checkpointInvariant (register_change m now monoNow rel k)
    ∧ checkpointInvariant (clear_all_changes m)
    ∧ checkpointInvariant (create_checkpoint m fs env)
    ∧ (create_checkpoint m fs env).hasCheckpoint = true
    ∧ (create_checkpoint m fs env).checkpointDir.isSome = true
    ∧ checkpointInvariant (cancel_checkpoint m)
    ∧ (cancel_checkpoint m).hasCheckpoint = false
    ∧ (cancel_checkpoint m).checkpointDir = none
    ∧ checkpointInvariant (rollback m fs env monoNow).2.1
    ∧ checkpointInvariant (rollback_file m fs env monoNow rel).2.1 := by
  have hfr := register_change_frame m now monoNow rel k
  refine ⟨rfl, ?_, hm, rfl, rfl, rfl, rfl, rfl, rfl, ?_, ?_⟩
  · unfold checkpointInvariant
    rw [hfr.2.1, hfr.2.2]
    exact hm
  · unfold rollback
    cases h : m.checkpointDir with
    | none => exact hm
    | some snap => rfl
  · unfold rollback_file
    cases h : m.checkpointDir with
    | none => exact hm
    | some snap =>
      dsimp only
      by_cases hk : recordedKind m rel = Kind.created
      · rw [if_pos hk]
        by_cases he : env.unlinkErr rel = true
        · rw [if_pos he]
          exact hm
        · rw [if_neg he]
          exact hm
      · rw [if_neg hk]
        cases hs : lookupA snap rel with
        | some c =>
          dsimp only
          by_cases he : env.copyErr rel = true
          · rw [if_pos he]
            exact hm
          · rw [if_neg he]
            exact hm
        | none =>
          dsimp only
          by_cases he : env.unlinkErr rel = true
          · rw [if_pos he]
            exact hm
          · rw [if_neg he]
            exact hm

/-! ### Witnesses -/

/-- Witness for C1 at a concrete input: `deleted` then `created` on a fresh
path coalesces to the table's effective kind. -/
theorem coalescing_table_spec_witness :
    (lookupA (register_change (initMonitor none) 0 0 ["a.txt"]
        Kind.deleted).allChanges ["a.txt"]).map (fun e => e.type) =
      some Kind.deleted
    ∧ (lookupA (register_change (register_change (initMonitor none) 0 0
          ["a.txt"] Kind.deleted) 1 1 ["a.txt"] Kind.created).allChanges
        ["a.txt"]).map (fun e => e.type) =
      some (specEffectiveKind Kind.deleted Kind.created) :=
  coalescing_table_spec (initMonitor none) ["a.txt"] Kind.deleted Kind.created
    0 0 1 1 (by decide) rfl rfl

/-- Witness for C2 at concrete inputs: both the no-checkpoint branch and the
active-checkpoint branch. -/
theorem rollback_spec_witness :
    rollback (initMonitor none) fs0 env0 0 = (false, initMonitor none, fs0)
    ∧ ((rollback cpMonitor fs0 env0 0).2.1.hasCheckpoint = false
      ∧ (rollback cpMonitor fs0 env0 0).2.1.checkpointDir = none
      ∧ (rollback cpMonitor fs0 env0 0).2.1.allChanges = []
      ∧ (rollback cpMonitor fs0 env0 0).2.1.checkpointChanges = []
      ∧ ((rollback cpMonitor fs0 env0 0).1 = true ↔
          (rollbackBody snapW cpMonitor fs0 env0 0).errs = [])) :=
  ⟨(rollback_spec (initMonitor none) fs0 env0 0).1 rfl,
    (rollback_spec cpMonitor fs0 env0 0).2 snapW rfl⟩

/-- Witness for C3 at a concrete input: `c.txt`, recorded as `deleted` since
the checkpoint, is restored from the snapshot copy and removed from both
tables. -/
theorem rollback_file_spec_witness :
    rollback_file cpMonitor fs0 env0 0 ["c.txt"] =
      (true, popBoth (suppress_path cpMonitor 0 ["c.txt"]) ["c.txt"],
        insertA fs0 ["c.txt"] 7) :=
  (rollback_file_spec cpMonitor fs0 env0 0 ["c.txt"] snapW rfl).2.2.2.2.1
    (by decide) 7 (by decide) rfl

/-- Witness for C4 (amended) at concrete inputs: an event at monotonic time
5 inside the window (expiry 10) is dropped with the window retained, and an
event at monotonic time 12 clears the entry and is recorded. -/
theorem suppression_window_spec_witness :
    register_change suppressedMonitor 0 5 ["a"] Kind.modified =
        suppressedMonitor
    ∧ ((register_change suppressedMonitor 0 12 ["a"] Kind.modified).suppressed
          = eraseA suppressedMonitor.suppressed ["a"]
      ∧ lookupA (register_change suppressedMonitor 0 12 ["a"]
            Kind.modified).allChanges ["a"] =
          some ⟨merge ((lookupA suppressedMonitor.allChanges ["a"]).map
            (fun x => x.type)) Kind.modified, 0⟩) :=
  ⟨(suppression_window_spec suppressedMonitor 0 5 ["a"] Kind.modified 10
      rfl (by decide) (by decide)).1 (by decide),
    (suppression_window_spec suppressedMonitor 0 12 ["a"] Kind.modified 10
      rfl (by decide) (by decide)).2 (by decide)⟩

/-- Witness for C5 at a concrete input with an active checkpoint. -/
theorem get_changes_mode_spec_witness :
    get_changes cpMonitor = cpMonitor.checkpointChanges
    ∧ get_changes { cpMonitor with allChanges := [] } =
        cpMonitor.checkpointChanges :=
  ⟨((get_changes_mode_spec cpMonitor).1 rfl).1,
    ((get_changes_mode_spec cpMonitor).1 rfl).2 []⟩

/-- Witness for C8 at a concrete input: `.git/cfg` stays out of both
tables, out of `get_changes`, and out of the snapshot staging directory. -/
theorem ignored_paths_invisible_witness :
    lookupA (runEvents (initMonitor none)
        [⟨0, 0, [".git", "cfg"], Kind.created⟩,
          ⟨1, 1, ["ok.txt"], Kind.modified⟩]).allChanges [".git", "cfg"] = none
    ∧ lookupA (runEvents (initMonitor none)
        [⟨0, 0, [".git", "cfg"], Kind.created⟩,
          ⟨1, 1, ["ok.txt"], Kind.modified⟩]).checkpointChanges
        [".git", "cfg"] = none
    ∧ lookupA (get_changes (runEvents (initMonitor none)
        [⟨0, 0, [".git", "cfg"], Kind.created⟩,
          ⟨1, 1, ["ok.txt"], Kind.modified⟩])) [".git", "cfg"] = none
    ∧ lookupA (walkCopied (initMonitor none).ignorePatterns env0
        [([".git", "cfg"], 1), (["ok.txt"], 2)]) [".git", "cfg"] = none :=
  ignored_paths_invisible (initMonitor none) [".git", "cfg"]
    [⟨0, 0, [".git", "cfg"], Kind.created⟩, ⟨1, 1, ["ok.txt"], Kind.modified⟩]
    [([".git", "cfg"], 1), (["ok.txt"], 2)] env0 (by decide) rfl rfl

/-- Witness for C9 at a concrete input with an active checkpoint. -/
theorem checkpoint_flag_dir_invariant_witness :
    checkpointInvariant (initMonitor none)
    ∧ checkpointInvariant
        (register_change cpMonitor 0 0 ["a.txt"] Kind.modified)
    ∧ checkpointInvariant (rollback cpMonitor fs0 env0 0).2.1
    ∧ checkpointInvariant
        (rollback_file cpMonitor fs0 env0 0 ["a.txt"]).2.1 :=
  have h := checkpoint_flag_dir_invariant none cpMonitor fs0 env0 0 0
    ["a.txt"] Kind.modified rfl
  ⟨h.1, h.2.1, h.2.2.2.2.2.2.2.2.2.1, h.2.2.2.2.2.2.2.2.2.2⟩
